import Mathlib

/-!
Verification of the funnel-tracker (`app.py`): a CLI contact store plus a
small HTTP JSON API with spreadsheet import/export over a second store.
The Python code is shallowly embedded: dynamic (JSON / spreadsheet cell)
values become the inductive `PVal`, each CLI operation and HTTP handler
becomes a Lean function on an explicit store, and raised exceptions become
`Option` results.
-/

namespace Funnel

/-! ## Python-style dynamic values -/

/-- A dynamically typed value as it appears in JSON payloads, the persisted
stores and spreadsheet cells: Python `None`, `str`, `int` or `bool`. -/
inductive PVal where
  | null
  | str (s : String)
  | int (n : Int)
  | bool (b : Bool)
deriving Repr, DecidableEq

/-- Python truthiness (`bool(v)`) for the values of `PVal`. -/
def PVal.truthy : PVal → Bool
  | .null => false
  | .str s => s ≠ ""
  | .int n => n ≠ 0
  | .bool b => b

/-- Python `a or b`: `a` when truthy, otherwise `b`. -/
def pyOr (a b : PVal) : PVal :=
  if a.truthy then a else b

/-- Python `==` between a `PVal` and an `int` (`True == 1`, `"1" != 1`). -/
def PVal.eqInt : PVal → Int → Bool
  | .int n, m => n == m
  | .bool b, m => (if b then (1 : Int) else 0) == m
  | _, _ => false

/-- The whitespace characters removed by Python `str.strip()` (ASCII part). -/
def pySpace (c : Char) : Bool :=
  c == ' ' || c == '\t' || c == '\n' || c == '\r' || c == '\x0b' || c == '\x0c'

/-- Strip `pySpace` characters from both ends of a character list. -/
def stripChars (l : List Char) : List Char :=
  ((l.dropWhile pySpace).reverse.dropWhile pySpace).reverse

/-- Python `s.strip()`. -/
def pyStrip (s : String) : String :=
  String.mk (stripChars s.data)

/-- Python `s.lower()` (ASCII fragment, all the code ever lowercases). -/
def pyLower (s : String) : String :=
  String.mk (s.data.map Char.toLower)

/-- Python `s.startswith(pre)`. -/
def pyStartsWith (s pre : String) : Bool :=
  pre.data.isPrefixOf s.data

/-- Python `str(v)`. -/
def pyStr : PVal → String
  | .null => "None"
  | .str s => s
  | .int n => toString n
  | .bool b => if b then "True" else "False"

/-- The numeric value of a decimal digit character. -/
def digitVal (c : Char) : Option Nat :=
  if '0' ≤ c && c ≤ '9' then some (c.toNat - '0'.toNat) else Option.none

/-- A non-empty all-digit character list read as a natural number. -/
def digitsToNat : List Char → Option Nat
  | [] => Option.none
  | l =>
      l.foldl
        (fun acc c => acc.bind (fun a => (digitVal c).map (fun d => a * 10 + d)))
        (some 0)

/-- Python `int(s)` on a string: surrounding whitespace stripped, an optional
sign, then decimal digits; anything else raises (`Option.none`). -/
def pyIntOfString (s : String) : Option Int :=
  match (pyStrip s).data with
  | '-' :: rest => (digitsToNat rest).map (fun n => -(n : Int))
  | '+' :: rest => (digitsToNat rest).map (fun n => (n : Int))
  | l => (digitsToNat l).map (fun n => (n : Int))

/-- Python `int(v)`; `Option.none` models a raised `TypeError`/`ValueError`. -/
def pyInt : PVal → Option Int
  | .null => Option.none
  | .str s => pyIntOfString s
  | .int n => some n
  | .bool b => some (if b then 1 else 0)

/-! ## CLI store (`data/funnel.json`) -/

/-- A CLI-store contact record as created by `add_contact`. -/
structure Contact where
  name : String
  contacted_at : String
  joined : Bool
  challenge : Bool
  contact_submitted : Bool
  notes : String
deriving Repr, DecidableEq

/-- `_find_contact`: first contact whose trimmed, lowercased name matches. -/
def _find_contact (contacts : List Contact) (name : String) : Option Contact :=
  contacts.find? (fun c => pyLower (pyStrip c.name) == pyLower (pyStrip name))

/-- The argparse namespace seen by `add_contact`. -/
structure AddArgs where
  name : String
  notes : Option String
deriving Repr, DecidableEq

/-- `add_contact`, with `now` standing for `datetime.utcnow().isoformat()`.
Returns the new store contents and the printed message. -/
def add_contact (now : String) (args : AddArgs) (store : List Contact) :
    List Contact × String :=
  match _find_contact store args.name with
  | some _ =>
      (store, "Contact \x27" ++ args.name ++ "\x27 already exists. Use the update command instead.")
  | Option.none =>
      let record : Contact :=
        { name := pyStrip args.name
          contacted_at := now ++ "Z"
          joined := false
          challenge := false
          contact_submitted := false
          notes := args.notes.getD "" }
      (store ++ [record], "Added contact: " ++ record.name)

/-- The argparse namespace seen by `update_contact`. Each stage flag is the
dynamic attribute value: `Option.none` models Python `None`, `some b` a
boolean. -/
structure UpdateArgs where
  name : String
  joined : Option Bool
  challenge : Option Bool
  contact_submitted : Option Bool
  notes : Option String
deriving Repr, DecidableEq

/-- One option token on an `update` command line. -/
inductive UpdateTok where
  | joined
  | noJoined
  | challenge
  | noChallenge
  | contactSubmitted
  | noContactSubmitted
  | notes (s : String)
deriving Repr, DecidableEq

/-- The argparse parse of `update <name> <tokens>` built by `build_parser`.
For each flag pair the first registered action is `store_true`, whose
default `False` is installed in the namespace, so an unset stage flag parses
to `some false`, never `Option.none`. -/
def parseUpdateArgs (name : String) (toks : List UpdateTok) : UpdateArgs :=
  toks.foldl
    (fun a t =>
      match t with
      | .joined => { a with joined := some true }
      | .noJoined => { a with joined := some false }
      | .challenge => { a with challenge := some true }
      | .noChallenge => { a with challenge := some false }
      | .contactSubmitted => { a with contact_submitted := some true }
      | .noContactSubmitted => { a with contact_submitted := some false }
      | .notes s => { a with notes := some s })
    { name := name
      joined := some false
      challenge := some false
      contact_submitted := some false
      notes := Option.none }

/-- The `for field in [...]` / `if args.notes is not None` body of
`update_contact` applied to the found contact; returns the mutated contact
and the `changed` marker. -/
def updateFields (args : UpdateArgs) (c : Contact) : Contact × Bool :=
  let (j, ch1) :=
    match args.joined with
    | Option.none => (c.joined, false)
    | some b => if c.joined != b then (b, true) else (c.joined, false)
  let (ch, ch2) :=
    match args.challenge with
    | Option.none => (c.challenge, false)
    | some b => if c.challenge != b then (b, true) else (c.challenge, false)
  let (cs, ch3) :=
    match args.contact_submitted with
    | Option.none => (c.contact_submitted, false)
    | some b => if c.contact_submitted != b then (b, true) else (c.contact_submitted, false)
  let (nts, ch4) :=
    match args.notes with
    | Option.none => (c.notes, false)
    | some s => (s, true)
  ({ c with joined := j, challenge := ch, contact_submitted := cs, notes := nts },
   ch1 || ch2 || ch3 || ch4)

/-- Mutate the first contact matching the trimmed lowercased key, as the
in-place dict mutation after `_find_contact` does. -/
def updateFirst (key : String) (args : UpdateArgs) :
    List Contact → List Contact × Bool
  | [] => ([], false)
  | c :: rest =>
      if pyLower (pyStrip c.name) == key then
        let (c2, changed) := updateFields args c
        (c2 :: rest, changed)
      else
        let (rest2, changed) := updateFirst key args rest
        (c :: rest2, changed)

/-- `update_contact`: returns the resulting store contents, whether
`_save_data` ran, and the printed message. When the contact is not found
the store file is not rewritten. -/
def update_contact (args : UpdateArgs) (store : List Contact) :
    List Contact × Bool × String :=
  match _find_contact store args.name with
  | Option.none =>
      (store, false, "Contact \x27" ++ args.name ++ "\x27 not found. Add them first.")
  | some c =>
      let (store2, changed) := updateFirst (pyLower (pyStrip args.name)) args store
      if changed then
        (store2, true, "Updated contact: " ++ c.name)
      else
        (store2, false, "No updates were applied.")

/-- A full CLI `update` invocation: argparse then `update_contact`. -/
def cliUpdate (name : String) (toks : List UpdateTok) (store : List Contact) :
    List Contact × Bool × String :=
  update_contact (parseUpdateArgs name toks) store

/-! ## Web store (`data/web_contacts.json`) and HTTP handlers -/

/-- A web-store contact. The fields hold dynamic values because the persisted
JSON does: `PUT` writes payload values unvalidated and import writes cell
values into `notes` and `dateAdded`. -/
structure WebContact where
  id : PVal
  name : PVal
  notes : PVal
  joinedCommunity : PVal
  tookChallenge : PVal
  submittedPaid : PVal
  customer : PVal
  dateAdded : PVal
deriving Repr, DecidableEq

/-- A parsed JSON object body (Python dict: keys unique, `lookup` = `get`). -/
def Payload := List (String × PVal)

/-- Python `payload.get(k)` (`None` when the key is absent). -/
def jget (payload : Payload) (k : String) : PVal :=
  (List.lookup k payload).getD PVal.null

/-- Whether `k in payload`. -/
def jhas (payload : Payload) (k : String) : Bool :=
  (List.lookup k payload).isSome

/-- A workbook sheet: the header row (string cells) plus the data rows. -/
structure Sheet where
  headers : List String
  rows : List (List PVal)
deriving Repr, DecidableEq

/-- An HTTP request body, as far as the handlers can distinguish it:
absent (`Content-Length: 0`), a JSON object, or an uploaded workbook. -/
inductive Body where
  | empty
  | json (payload : Payload)
  | sheet (s : Sheet)

/-- The data a handler writes to the response: a JSON error object, a single
contact, the contact array, the import count, an empty body, or the binary
workbook produced by export. -/
inductive RespBody where
  | err (msg : String)
  | contact (c : WebContact)
  | contacts (cs : List WebContact)
  | imported (n : Nat)
  | blank
  | sheet (s : Sheet)
deriving Repr, DecidableEq

/-- An HTTP response: status code and body. -/
structure Resp where
  status : Nat
  body : RespBody
deriving Repr, DecidableEq

/-- `self.path.rsplit("/", 1)[-1]`: the substring after the last slash. -/
def lastSegment (path : String) : String :=
  String.mk ((path.data.reverse.takeWhile (fun c => c != '/')).reverse)

/-- `_read_json`: empty or malformed bodies parse to the empty object. -/
def read_json : Body → Payload
  | .json payload => payload
  | _ => []

/-- `_handle_get_contacts` (the `GET /api/contacts*` handler body). -/
def handle_get_contacts (store : List WebContact) (path : String) : Resp :=
  if path != "/api/contacts" then
    match pyIntOfString (lastSegment path) with
    | Option.none => ⟨400, .err "Invalid contact id"⟩
    | some cid =>
        match store.find? (fun c => c.id.eqInt cid) with
        | Option.none => ⟨404, .err "Contact not found"⟩
        | some c => ⟨200, .contact c⟩
  else
    ⟨200, .contacts store⟩

/-- The fixed header row written by export and required by import. -/
def expectedHeaders : List String :=
  ["id", "name", "notes", "joinedCommunity", "tookChallenge", "submittedPaid",
   "customer", "dateAdded"]

/-- One exported data row: `[id, name, notes, bool(joined...), bool(took...),
bool(submitted...), bool(customer), dateAdded]`. -/
def exportRow (c : WebContact) : List PVal :=
  [c.id, c.name, c.notes, .bool c.joinedCommunity.truthy,
   .bool c.tookChallenge.truthy, .bool c.submittedPaid.truthy,
   .bool c.customer.truthy, c.dateAdded]

/-- `_handle_export_contacts`: the workbook built from the store (one header
row, one row per contact, stage flags via `bool(...)`). -/
def exportSheet (store : List WebContact) : Sheet :=
  { headers := expectedHeaders
    rows := store.map exportRow }

/-- `_to_bool` from `_handle_import_contacts`. -/
def _to_bool (v : PVal) : Bool :=
  match v with
  | .bool b => b
  | .str s => ["true", "1", "yes", "y"].contains (pyLower (pyStrip s))
  | .int n => n ≠ 0
  | .null => false

/-- `dict(zip(headers, row)).get(key)`: the cell under `key`, the last
occurrence winning as in a Python dict built from duplicate keys; `zip`
truncates to the shorter list; a missing key yields `None`. -/
def dictGet (headers : List String) (row : List PVal) (key : String) : PVal :=
  ((((headers.zip row).filter (fun p => p.1 == key)).getLast?).map Prod.snd).getD PVal.null

/-- `if not headers or set(headers) != expected_headers`. -/
def headersValid (headers : List String) : Bool :=
  !headers.isEmpty
    && expectedHeaders.all (fun e => headers.contains e)
    && headers.all (fun h => expectedHeaders.contains h)

/-- One non-blank import row turned into a contact; `freshId` and `now` stand
for the per-row `utcnow()` calls; `Option.none` models the uncaught exception
raised by `int(...)` on an unconvertible id cell. -/
def importRow (headers : List String) (freshId : Int) (now : String)
    (row : List PVal) : Option WebContact :=
  let get := fun k => dictGet headers row k
  match pyInt (pyOr (get "id") (.int freshId)) with
  | Option.none => Option.none
  | some idVal =>
      some
        { id := .int idVal
          name := .str (pyStrip (pyStr (pyOr (get "name") (.str ""))))
          notes := pyOr (get "notes") (.str "")
          joinedCommunity := .bool (_to_bool (get "joinedCommunity"))
          tookChallenge := .bool (_to_bool (get "tookChallenge"))
          submittedPaid := .bool (_to_bool (get "submittedPaid"))
          customer := .bool (_to_bool (get "customer"))
          dateAdded := pyOr (get "dateAdded") (.str (now ++ "Z")) }

/-- The import row loop: rows with no truthy cell are skipped; `i` indexes
the `utcnow()` samples. -/
def importRows (headers : List String) (fresh : Nat → Int) (now : Nat → String) :
    Nat → List (List PVal) → Option (List WebContact)
  | _, [] => some []
  | i, row :: rest =>
      if row.any PVal.truthy then
        match importRow headers (fresh i) (now i) row with
        | Option.none => Option.none
        | some c =>
            match importRows headers fresh now (i + 1) rest with
            | Option.none => Option.none
            | some cs => some (c :: cs)
      else
        importRows headers fresh now (i + 1) rest

/-- `_handle_import_contacts`: returns the store contents afterwards and the
response (`Option.none` = the request died on an uncaught exception, in which
case nothing was saved). -/
def handle_import (fresh : Nat → Int) (now : Nat → String) (body : Body)
    (store : List WebContact) : List WebContact × Option Resp :=
  match body with
  | .empty => (store, some ⟨400, .err "Missing file content"⟩)
  | .json _ => (store, some ⟨400, .err "Invalid Excel file"⟩)
  | .sheet s =>
      if headersValid s.headers then
        match importRows s.headers fresh now 0 s.rows with
        | Option.none => (store, Option.none)
        | some cs => (cs, some ⟨200, .imported cs.length⟩)
      else
        (store, some ⟨400, .err "Excel sheet must contain the correct headers"⟩)

/-- `(payload.get("name") or "").strip()`; `.strip()` on a truthy non-string
raises, modelled as `Option.none`. -/
def pyStripAttr (v : PVal) : Option String :=
  match v with
  | .str s => some (pyStrip s)
  | _ => Option.none

/-- `_handle_create_contact`: store afterwards and response (`Option.none` =
uncaught exception before any save). -/
def handle_create (freshId : Int) (now : String) (body : Body)
    (store : List WebContact) : List WebContact × Option Resp :=
  let payload := read_json body
  match pyStripAttr (pyOr (jget payload "name") (.str "")) with
  | Option.none => (store, Option.none)
  | some name =>
      if name == "" then
        (store, some ⟨400, .err "Name is required"⟩)
      else
        let c : WebContact :=
          { id := .int freshId
            name := .str name
            notes := pyOr (jget payload "notes") (.str "")
            joinedCommunity := .bool (jget payload "joinedCommunity").truthy
            tookChallenge := .bool (jget payload "tookChallenge").truthy
            submittedPaid := .bool (jget payload "submittedPaid").truthy
            customer := .bool (jget payload "customer").truthy
            dateAdded := .str (now ++ "Z") }
        (store ++ [c], some ⟨201, .contact c⟩)

/-- The `for key in [...]: if key in payload` loop of the PUT handler: each
of the six listed keys, when present in the payload, overwrites its field
(the keys are independent, so the loop is a simultaneous update; `id` and
`dateAdded` are never touched). -/
def applyPut (payload : Payload) (c : WebContact) : WebContact :=
  { c with
    name := if jhas payload "name" then jget payload "name" else c.name
    notes := if jhas payload "notes" then jget payload "notes" else c.notes
    joinedCommunity :=
      if jhas payload "joinedCommunity" then jget payload "joinedCommunity"
      else c.joinedCommunity
    tookChallenge :=
      if jhas payload "tookChallenge" then jget payload "tookChallenge"
      else c.tookChallenge
    submittedPaid :=
      if jhas payload "submittedPaid" then jget payload "submittedPaid"
      else c.submittedPaid
    customer := if jhas payload "customer" then jget payload "customer" else c.customer }

/-- The PUT loop over the store: mutate the first contact with the given id. -/
def putFirst (cid : Int) (payload : Payload) :
    List WebContact → Option (List WebContact × WebContact)
  | [] => Option.none
  | c :: rest =>
      if c.id.eqInt cid then
        let c2 := applyPut payload c
        some (c2 :: rest, c2)
      else
        match putFirst cid payload rest with
        | Option.none => Option.none
        | some (rest2, u) => some (c :: rest2, u)

/-- `_handle_update_contact`. -/
def handle_update (path : String) (body : Body) (store : List WebContact) :
    List WebContact × Resp :=
  match pyIntOfString (lastSegment path) with
  | Option.none => (store, ⟨400, .err "Invalid contact id"⟩)
  | some cid =>
      match putFirst cid (read_json body) store with
      | Option.none => (store, ⟨404, .err "Contact not found"⟩)
      | some (store2, c2) => (store2, ⟨200, .contact c2⟩)

/-- `_handle_delete_contact`. -/
def handle_delete (path : String) (store : List WebContact) :
    List WebContact × Resp :=
  match pyIntOfString (lastSegment path) with
  | Option.none => (store, ⟨400, .err "Invalid contact id"⟩)
  | some cid =>
      let rest := store.filter (fun c => !(c.id.eqInt cid))
      if rest.length == store.length then
        (store, ⟨404, .err "Contact not found"⟩)
      else
        (rest, ⟨204, .blank⟩)

/-- The HTTP verbs the handler class implements. -/
inductive Method where
  | GET
  | POST
  | PUT
  | DELETE
  | OPTIONS
deriving Repr, DecidableEq

/-- The verb dispatch of `ContactsRequestHandler` (`do_GET` … `do_OPTIONS`):
returns the store afterwards and the response (`Option.none` = uncaught
exception). `fresh`/`now` sample the clock (`utcnow()`), indexed by call. -/
def handleRequest (fresh : Nat → Int) (now : Nat → String) (m : Method)
    (path : String) (body : Body) (store : List WebContact) :
    List WebContact × Option Resp :=
  match m with
  | .OPTIONS => (store, some ⟨200, .blank⟩)
  | .GET =>
      if path == "/api/contacts/export" then
        (store, some ⟨200, .sheet (exportSheet store)⟩)
      else if pyStartsWith path "/api/contacts" then
        (store, some (handle_get_contacts store path))
      else
        (store, some ⟨404, .err "Not found"⟩)
  | .POST =>
      if path == "/api/contacts/import" then
        handle_import fresh now body store
      else if path == "/api/contacts" then
        handle_create (fresh 0) (now 0) body store
      else
        (store, some ⟨404, .err "Not found"⟩)
  | .PUT =>
      if pyStartsWith path "/api/contacts/" then
        let (s2, r) := handle_update path body store
        (s2, some r)
      else
        (store, some ⟨404, .err "Not found"⟩)
  | .DELETE =>
      if pyStartsWith path "/api/contacts/" then
        let (s2, r) := handle_delete path store
        (s2, some r)
      else
        (store, some ⟨404, .err "Not found"⟩)

/-! ## Derived predicates used by the claims -/

/-- "name: a string, non-empty after trim" for one dynamic value. -/
def pvalNameOk (v : PVal) : Bool :=
  match v with
  | .str s => pyStrip s ≠ ""
  | _ => false

/-- The name invariant for one web contact. -/
def nameOk (c : WebContact) : Bool :=
  pvalNameOk c.name

/-- Pairwise distinctness of a list of id values. -/
def idsUnique : List PVal → Bool
  | [] => true
  | v :: rest => rest.all (fun w => !(w == v)) && idsUnique rest

/-- The two web-store invariants of the spec: every name is a string that is
non-empty after trimming, and no two contacts share an id. -/
def storeInv (store : List WebContact) : Bool :=
  store.all nameOk && idsUnique (store.map (fun c => c.id))

/-- The verb/path combinations the handler code dispatches to a handler
(everything else falls to its 404 branch). -/
def routeMatched (m : Method) (path : String) : Bool :=
  match m with
  | .OPTIONS => true
  | .GET => path == "/api/contacts/export" || pyStartsWith path "/api/contacts"
  | .POST => path == "/api/contacts/import" || path == "/api/contacts"
  | .PUT => pyStartsWith path "/api/contacts/"
  | .DELETE => pyStartsWith path "/api/contacts/"

/-- Modelled from the spec: the routes listed in the section 4.3 API table,
with `{id}` read as a single (slash-free) path segment after
`/api/contacts/`. -/
def specRoute (m : Method) (path : String) : Bool :=
  let isIdPath :=
    pyStartsWith path "/api/contacts/" && !((path.data.drop 14).contains '/')
  match m with
  | .OPTIONS => true
  | .GET => path == "/api/contacts" || path == "/api/contacts/export" || isIdPath
  | .POST => path == "/api/contacts" || path == "/api/contacts/import"
  | .PUT => isIdPath
  | .DELETE => isIdPath

/-- An import row whose id cell will not make `int(...)` raise: the cell is
falsy (so the synthesized timestamp is converted instead) or itself
convertible. -/
def importIdOk (headers : List String) (row : List PVal) : Bool :=
  !(dictGet headers row "id").truthy || (pyInt (dictGet headers row "id")).isSome

/-- A web contact that survives the export/import round trip unchanged:
integer id nonzero, name an already-trimmed string, notes a string, the four
stage flags booleans, dateAdded a non-empty string. -/
def roundTripSafe (c : WebContact) : Bool :=
  (match c.id with | .int n => n ≠ 0 | _ => false)
    && (match c.name with | .str s => pyStrip s == s | _ => false)
    && (match c.notes with | .str _ => true | _ => false)
    && (match c.joinedCommunity with | .bool _ => true | _ => false)
    && (match c.tookChallenge with | .bool _ => true | _ => false)
    && (match c.submittedPaid with | .bool _ => true | _ => false)
    && (match c.customer with | .bool _ => true | _ => false)
    && (match c.dateAdded with | .str s => s ≠ "" | _ => false)

/-! ## Helper lemmas about `pyStrip` -/

theorem dropWhile_head_false {α : Type} {p : α → Bool} {l : List α} {c : α}
    {t : List α} (h : l.dropWhile p = c :: t) : p c = false := by
  induction l with
  | nil => simp at h
  | cons x xs ih =>
      rw [List.dropWhile_cons] at h
      by_cases hx : p x = true
      · exact ih (by simpa [hx] using h)
      · simp [hx] at h
        simp [← h.1]
        simpa using hx

theorem dropWhile_of_head_false {α : Type} {p : α → Bool} {c : α} {t : List α}
    (h : p c = false) : List.dropWhile p (c :: t) = c :: t := by
  simp [List.dropWhile_cons, h]

theorem dropWhile_append_single {α : Type} {p : α → Bool} {c : α}
    (h : p c = false) (xs : List α) :
    ∃ ys, List.dropWhile p (xs ++ [c]) = ys ++ [c] := by
  induction xs with
  | nil => exact ⟨[], by simp [List.dropWhile_cons, h]⟩
  | cons x xs ih =>
      by_cases hx : p x = true
      · simpa [List.dropWhile_cons, hx] using ih
      · exact ⟨x :: xs, by simp [List.dropWhile_cons, hx]⟩

theorem stripChars_idem (l : List Char) : stripChars (stripChars l) = stripChars l := by
  cases hm : l.dropWhile pySpace with
  | nil => simp [stripChars, hm]
  | cons c t =>
      have hc : pySpace c = false := dropWhile_head_false hm
      obtain ⟨ys, hys⟩ := dropWhile_append_single hc t.reverse
      have hstrip : stripChars l = c :: ys.reverse := by
        simp [stripChars, hm, hys, List.reverse_append]
      have hhead : List.dropWhile pySpace (ys ++ [c]) = ys ++ [c] := by
        cases ys with
        | nil => simpa using dropWhile_of_head_false (t := []) hc
        | cons d ys2 =>
            have hd : pySpace d = false := dropWhile_head_false (t := ys2 ++ [c]) (by simpa using hys)
            simpa using dropWhile_of_head_false (t := ys2 ++ [c]) hd
      rw [hstrip]
      simp [stripChars, dropWhile_of_head_false hc, List.reverse_append, hhead]

theorem pyStrip_idem (s : String) : pyStrip (pyStrip s) = pyStrip s := by
  simp [pyStrip, stripChars_idem]

theorem pyStrip_ne_empty_iterate {s : String} (h : pyStrip s ≠ "") :
    pyStrip (pyStrip s) ≠ "" := by
  rw [pyStrip_idem]; exact h

/-! ## Claims -/

/-- C1: the claim says a stage flag the CLI caller did not provide is left
at its stored value. The code contradicts this: `build_parser` registers
`--joined` (`store_true`, default `False`) before `--no-joined`, so an unset
flag reaches `update_contact` as `False`, not `None`, and the dead
`value is not None` guard lets it overwrite a stored `True`. Here
`update "Jane Doe" --joined` on a contact with `challenge = True` also
resets `challenge` to `False`, while the claim requires only `joined` to
change. -/
theorem C1_unset_flags_reset :
    cliUpdate "Jane Doe" [UpdateTok.joined]
        [{ name := "Jane Doe", contacted_at := "T0Z", joined := false, challenge := true,
           contact_submitted := false, notes := "" }]
      = ([{ name := "Jane Doe", contacted_at := "T0Z", joined := true, challenge := false,
            contact_submitted := false, notes := "" }],
         true, "Updated contact: Jane Doe") := by
  decide

/-- C9: a CLI `update` on a name with no matching contact reports not-found,
does not save (`false` in the middle component means `_save_data` never ran,
so the store file stays byte-identical) and leaves the store contents
unchanged, for every combination of update arguments. -/
theorem C9_update_unknown_noop (args : UpdateArgs) (store : List Contact)
    (h : _find_contact store args.name = Option.none) :
    update_contact args store
      = (store, false, "Contact \x27" ++ args.name ++ "\x27 not found. Add them first.") := by
  simp [update_contact, h]

theorem C9_update_unknown_noop_witness :
    _find_contact
        [{ name := "Jane Doe", contacted_at := "T", joined := true, challenge := false,
           contact_submitted := false, notes := "" }] "Unknown" = Option.none
    ∧ update_contact
        { name := "Unknown", joined := some true, challenge := some false,
          contact_submitted := some false, notes := Option.none }
        [{ name := "Jane Doe", contacted_at := "T", joined := true, challenge := false,
           contact_submitted := false, notes := "" }]
      = ([{ name := "Jane Doe", contacted_at := "T", joined := true, challenge := false,
            contact_submitted := false, notes := "" }],
         false, "Contact \x27" ++ "Unknown" ++ "\x27 not found. Add them first.") :=
  ⟨by decide, C9_update_unknown_noop _ _ (by decide)⟩

/-- C6: CLI `add` with a name matching an existing contact case-insensitively
after trimming leaves the store unchanged; otherwise it appends exactly one
contact with all three stage flags false and notes defaulting to `""`. -/
theorem C6_add_idempotent_or_appends (now : String) (args : AddArgs) (store : List Contact) :
    ((_find_contact store args.name).isSome = true →
        add_contact now args store
          = (store,
             "Contact \x27" ++ args.name ++ "\x27 already exists. Use the update command instead."))
    ∧ (_find_contact store args.name = Option.none →
        add_contact now args store
          = (store ++ [{ name := pyStrip args.name, contacted_at := now ++ "Z",
                         joined := false, challenge := false, contact_submitted := false,
                         notes := args.notes.getD "" }],
             "Added contact: " ++ pyStrip args.name)) := by
  constructor
  · intro h
    obtain ⟨c, hc⟩ := Option.isSome_iff_exists.mp h
    simp [add_contact, hc]
  · intro h
    simp [add_contact, h]

theorem C6_add_idempotent_or_appends_witness :
    ((_find_contact
        [{ name := "Jane Doe", contacted_at := "T", joined := false, challenge := false,
           contact_submitted := false, notes := "" }] "  JANE DOE ").isSome = true
      ∧ add_contact "U" { name := "  JANE DOE ", notes := Option.none }
          [{ name := "Jane Doe", contacted_at := "T", joined := false, challenge := false,
             contact_submitted := false, notes := "" }]
        = ([{ name := "Jane Doe", contacted_at := "T", joined := false, challenge := false,
              contact_submitted := false, notes := "" }],
           "Contact \x27" ++ "  JANE DOE " ++ "\x27 already exists. Use the update command instead."))
    ∧ (_find_contact [] "Bob" = Option.none
      ∧ add_contact "U" { name := "Bob", notes := Option.none } []
        = ([{ name := pyStrip "Bob", contacted_at := "U" ++ "Z",
              joined := false, challenge := false, contact_submitted := false,
              notes := (Option.none (α := String)).getD "" }],
           "Added contact: " ++ pyStrip "Bob")) :=
  ⟨⟨by decide, (C6_add_idempotent_or_appends "U" _ _).1 (by decide)⟩,
   ⟨by decide, (C6_add_idempotent_or_appends "U" _ _).2 (by decide)⟩⟩

/-- C8: `DELETE /api/contacts/{id}`: when no contact carries the id the
response is 404 and the store is unchanged; when one does, the response is
204 with an empty body and the resulting store has no contact with that
id. -/
theorem C8_delete_semantics (fresh : Nat → Int) (now : Nat → String) (path : String)
    (body : Body) (store : List WebContact) (cid : Int)
    (hp : pyStartsWith path "/api/contacts/" = true)
    (hid : pyIntOfString (lastSegment path) = some cid) :
    ((∀ c ∈ store, c.id.eqInt cid = false) →
        handleRequest fresh now .DELETE path body store
          = (store, some ⟨404, RespBody.err "Contact not found"⟩))
    ∧ ((∃ c ∈ store, c.id.eqInt cid = true) →
        (handleRequest fresh now .DELETE path body store).2 = some (⟨204, RespBody.blank⟩ : Resp)
          ∧ ∀ c ∈ (handleRequest fresh now .DELETE path body store).1,
              c.id.eqInt cid = false) := by
  have hreq : handleRequest fresh now .DELETE path body store
      = ((handle_delete path store).1, some (handle_delete path store).2) := by
    simp [handleRequest, hp]
  constructor
  · intro hall
    have hfil : store.filter (fun c => !(c.id.eqInt cid)) = store :=
      List.filter_eq_self.mpr (by intro a ha; simp [hall a ha])
    rw [hreq]
    simp [handle_delete, hid, hfil]
  · intro hex
    have hlt : (store.filter (fun c => !(c.id.eqInt cid))).length < store.length := by
      apply List.length_filter_lt_length_iff_exists.mpr
      obtain ⟨c, hc, hcid⟩ := hex
      exact ⟨c, hc, by simp [hcid]⟩
    have hne : ((store.filter (fun c => !(c.id.eqInt cid))).length == store.length) = false := by
      simp [Nat.ne_of_lt hlt]
    rw [hreq]
    refine ⟨by simp [handle_delete, hid, hne], ?_⟩
    intro c hc
    simp [handle_delete, hid, hne] at hc
    exact hc.2

theorem C8_delete_semantics_witness :
    ((∀ c ∈ [(⟨.int 9, .str "A", .str "", .bool false, .bool false, .bool false, .bool false,
               .str "D"⟩ : WebContact)], PVal.eqInt c.id 7 = false)
      ∧ handleRequest (fun _ => 0) (fun _ => "") .DELETE "/api/contacts/7" .empty
          [⟨.int 9, .str "A", .str "", .bool false, .bool false, .bool false, .bool false, .str "D"⟩]
        = ([⟨.int 9, .str "A", .str "", .bool false, .bool false, .bool false, .bool false, .str "D"⟩],
           some ⟨404, RespBody.err "Contact not found"⟩))
    ∧ ((handleRequest (fun _ => 0) (fun _ => "") .DELETE "/api/contacts/7" .empty
          [⟨.int 7, .str "A", .str "", .bool false, .bool false, .bool false, .bool false, .str "D"⟩]).2
        = some (⟨204, RespBody.blank⟩ : Resp)
      ∧ ∀ c ∈ (handleRequest (fun _ => 0) (fun _ => "") .DELETE "/api/contacts/7" .empty
          [⟨.int 7, .str "A", .str "", .bool false, .bool false, .bool false, .bool false,
            .str "D"⟩]).1, PVal.eqInt c.id 7 = false) :=
  ⟨⟨by decide,
    (C8_delete_semantics (fun _ => 0) (fun _ => "") "/api/contacts/7" .empty _ 7
        (by decide) (by decide)).1 (by decide)⟩,
   (C8_delete_semantics (fun _ => 0) (fun _ => "") "/api/contacts/7" .empty _ 7
        (by decide) (by decide)).2 (by decide)⟩

/-- C5 (amended): requests whose verb/path combination falls outside what the
code dispatches — OPTIONS anything; GET of `/api/contacts/export` or of any
path merely starting with `/api/contacts`; POST of exactly
`/api/contacts/import` or `/api/contacts`; PUT/DELETE of any path starting
with `/api/contacts/` — get 404 with body `{"error": "Not found"}` and leave
the store untouched. -/
theorem C5_unmatched_routes_404 (fresh : Nat → Int) (now : Nat → String) (m : Method)
    (path : String) (body : Body) (store : List WebContact)
    (h : routeMatched m path = false) :
    handleRequest fresh now m path body store
      = (store, some ⟨404, RespBody.err "Not found"⟩) := by
  cases m <;> simp [routeMatched] at h <;> simp [handleRequest, h]

theorem C5_unmatched_routes_404_witness :
    routeMatched .PUT "/foo" = false
    ∧ handleRequest (fun _ => 0) (fun _ => "") .PUT "/foo" .empty []
        = ([], some ⟨404, RespBody.err "Not found"⟩) :=
  ⟨by decide, C5_unmatched_routes_404 (fun _ => 0) (fun _ => "") .PUT "/foo" .empty [] (by decide)⟩

theorem importIdOk_pyInt {headers : List String} {row : List PVal} (freshId : Int)
    (h : importIdOk headers row = true) :
    ∃ v, pyInt (pyOr (dictGet headers row "id") (.int freshId)) = some v := by
  unfold importIdOk at h
  by_cases ht : (dictGet headers row "id").truthy = true
  · simp [ht] at h
    obtain ⟨v, hv⟩ := Option.isSome_iff_exists.mp h
    exact ⟨v, by simp [pyOr, ht, hv]⟩
  · have ht2 : (dictGet headers row "id").truthy = false := by simpa using ht
    exact ⟨freshId, by simp [pyOr, ht2, pyInt]⟩

theorem importRow_isSome {headers : List String} {row : List PVal}
    (freshId : Int) (now : String) (h : importIdOk headers row = true) :
    ∃ c, importRow headers freshId now row = some c := by
  obtain ⟨v, hv⟩ := importIdOk_pyInt freshId h
  exact ⟨_, by simp only [importRow]; rw [hv]⟩

theorem importRows_length (headers : List String) (fresh : Nat → Int) (now : Nat → String) :
    ∀ (rows : List (List PVal)) (i : Nat),
      (∀ row ∈ rows, row.any PVal.truthy = true → importIdOk headers row = true) →
      ∃ cs, importRows headers fresh now i rows = some cs
        ∧ cs.length = (rows.filter (fun r => r.any PVal.truthy)).length := by
  intro rows
  induction rows with
  | nil => exact fun i _ => ⟨[], by simp [importRows], rfl⟩
  | cons row rest ih =>
      intro i hid
      obtain ⟨cs, hcs, hlen⟩ := ih (i + 1) (fun r hr => hid r (by simp [hr]))
      by_cases hany : row.any PVal.truthy = true
      · obtain ⟨c, hc⟩ := importRow_isSome (fresh i) (now i) (hid row (by simp) hany)
        refine ⟨c :: cs, ?_, ?_⟩
        · simp [importRows, hany, hc, hcs]
        · simp [List.filter_cons, hany, hlen]
      · have hany2 : row.any PVal.truthy = false := by simpa using hany
        refine ⟨cs, ?_, ?_⟩
        · simp [importRows, hany2, hcs]
        · simp [List.filter_cons, hany2, hlen]

/-- C2 (amended): importing a sheet with valid headers replaces the whole
store — afterwards it holds exactly one contact per data row (a row with at
least one truthy cell; all-falsy rows are skipped), whatever it held before,
and the response is 200 `{"imported": N}` with N the number of data rows —
provided the id cell of every data row is falsy or convertible by `int(...)`.
A data row whose id cell is truthy but unconvertible makes the request die
on an uncaught exception with no response and the store unchanged (see the
counterexample). -/
theorem C2_import_replaces_store (fresh : Nat → Int) (now : Nat → String)
    (store : List WebContact) (s : Sheet)
    (hh : headersValid s.headers = true)
    (hids : ∀ row ∈ s.rows, row.any PVal.truthy = true → importIdOk s.headers row = true) :
    ∃ cs, handleRequest fresh now .POST "/api/contacts/import" (.sheet s) store
        = (cs, some ⟨200,
            RespBody.imported (s.rows.filter (fun r => r.any PVal.truthy)).length⟩)
      ∧ cs.length = (s.rows.filter (fun r => r.any PVal.truthy)).length := by
  obtain ⟨cs, hcs, hlen⟩ := importRows_length s.headers fresh now s.rows 0 hids
  refine ⟨cs, ?_, hlen⟩
  simp [handleRequest, handle_import, hh, hcs, hlen]

theorem C2_import_replaces_store_witness :
    ∃ cs, handleRequest (fun _ => 99) (fun _ => "T") .POST "/api/contacts/import"
        (.sheet ⟨expectedHeaders,
          [[.int 1, .str "A", .str "", .bool false, .bool false, .bool false, .bool false, .str "D"],
           [.null, .str "", .int 0, .bool false, .bool false, .bool false, .bool false, .null],
           [.int 0, .str "B", .str "", .bool true, .bool false, .bool false, .bool false, .str "D"]]⟩)
        [⟨.int 42, .str "Old", .str "", .bool false, .bool false, .bool false, .bool false, .str "D"⟩]
      = (cs, some ⟨200, RespBody.imported 2⟩)
      ∧ cs.length = 2 :=
  C2_import_replaces_store (fun _ => 99) (fun _ => "T") _ _ (by decide) (by decide)

/-- C2 counterexample: the claim as frozen quantifies over every sheet with
valid headers and N data rows. This sheet has valid headers and one data
row, but its id cell holds the truthy unconvertible string "abc", so
`int("abc")` raises outside any try/except: the request produces no
response (`Option.none`) and the store keeps its prior contents — not the
claimed 200 `{"imported": 1}` with a one-contact store. -/
theorem C2_import_counterexample :
    handleRequest (fun _ => 99) (fun _ => "T") .POST "/api/contacts/import"
        (.sheet ⟨expectedHeaders,
          [[.str "abc", .str "A", .str "", .bool false, .bool false, .bool false, .bool false,
            .str "D"]]⟩)
        [⟨.int 42, .str "Old", .str "", .bool false, .bool false, .bool false, .bool false,
          .str "D"⟩]
      = ([⟨.int 42, .str "Old", .str "", .bool false, .bool false, .bool false, .bool false,
           .str "D"⟩], Option.none) := by
  decide

/-- C7: `POST /api/contacts {"name": "Alice"}` appends a contact with the
synthesized integer id, name "Alice", empty notes, all four flags false and
a non-empty dateAdded, answering 201 with that object; `GET` of a
`/api/contacts/...` path whose final segment parses to that id then returns
the identical object (the id being fresh for the store); and a POST with a
whitespace-only name answers 400 and leaves the store unchanged. -/
theorem C7_create_then_get (fresh : Nat → Int) (now : Nat → String)
    (store : List WebContact) (p : String) (body2 : Body)
    (hp1 : pyStartsWith p "/api/contacts" = true)
    (hp2 : (p == "/api/contacts") = false)
    (hp3 : (p == "/api/contacts/export") = false)
    (hp4 : pyIntOfString (lastSegment p) = some (fresh 0))
    (hfree : ∀ d ∈ store, d.id.eqInt (fresh 0) = false) :
    (handleRequest fresh now .POST "/api/contacts" (.json [("name", .str "Alice")]) store
        = (store ++ [⟨.int (fresh 0), .str "Alice", .str "", .bool false, .bool false,
            .bool false, .bool false, .str (now 0 ++ "Z")⟩],
           some ⟨201, .contact ⟨.int (fresh 0), .str "Alice", .str "", .bool false, .bool false,
            .bool false, .bool false, .str (now 0 ++ "Z")⟩⟩)
      ∧ now 0 ++ "Z" ≠ "")
    ∧ handleRequest fresh now .GET p body2
        (store ++ [⟨.int (fresh 0), .str "Alice", .str "", .bool false, .bool false,
          .bool false, .bool false, .str (now 0 ++ "Z")⟩])
      = (store ++ [⟨.int (fresh 0), .str "Alice", .str "", .bool false, .bool false,
          .bool false, .bool false, .str (now 0 ++ "Z")⟩],
         some ⟨200, .contact ⟨.int (fresh 0), .str "Alice", .str "", .bool false, .bool false,
          .bool false, .bool false, .str (now 0 ++ "Z")⟩⟩)
    ∧ handleRequest fresh now .POST "/api/contacts" (.json [("name", .str "  ")]) store
        = (store, some ⟨400, RespBody.err "Name is required"⟩) := by
  refine ⟨⟨rfl, ?_⟩, ?_, rfl⟩
  · intro h
    have h2 := congrArg String.data h
    simp [String.data_append] at h2
  · have hfind : (store ++ [(⟨.int (fresh 0), .str "Alice", .str "", .bool false, .bool false,
        .bool false, .bool false, .str (now 0 ++ "Z")⟩ : WebContact)]).find?
          (fun c => c.id.eqInt (fresh 0))
        = some ⟨.int (fresh 0), .str "Alice", .str "", .bool false, .bool false,
            .bool false, .bool false, .str (now 0 ++ "Z")⟩ := by
      have hnone : store.find? (fun c => c.id.eqInt (fresh 0)) = Option.none :=
        List.find?_eq_none.mpr (fun d hd => by simp [hfree d hd])
      rw [List.find?_append, hnone]
      simp [PVal.eqInt]
    have hp2x : ¬p = "/api/contacts" := by simpa using hp2
    simp [handleRequest, hp1, hp3, handle_get_contacts, hp2x, hp4, hfind]

theorem C7_create_then_get_witness :
    handleRequest (fun _ => 5) (fun _ => "T") .GET "/api/contacts/5" .empty
        [⟨.int 5, .str "Alice", .str "", .bool false, .bool false, .bool false, .bool false,
          .str ("T" ++ "Z")⟩]
      = ([⟨.int 5, .str "Alice", .str "", .bool false, .bool false, .bool false, .bool false,
           .str ("T" ++ "Z")⟩],
         some ⟨200, .contact ⟨.int 5, .str "Alice", .str "", .bool false, .bool false,
          .bool false, .bool false, .str ("T" ++ "Z")⟩⟩) := by
  have h := C7_create_then_get (fun _ => 5) (fun _ => "T") [] "/api/contacts/5" .empty
    (by decide) (by decide) (by decide) (by decide) (by decide)
  simpa using h.2.1

/-- C10: during import, a row whose id cell is falsy (0, empty string or an
empty cell) gets the freshly sampled millisecond-timestamp id instead of the
cell value; a nonzero integer id cell is kept verbatim; and a row all of
whose cells are falsy is skipped and yields no contact. -/
theorem C10_import_id_synthesis (headers : List String) (fresh : Nat → Int)
    (now : Nat → String) (i : Nat) (row : List PVal) (rest : List (List PVal)) :
    ((dictGet headers row "id").truthy = false →
        (importRow headers (fresh i) (now i) row).map (fun c => c.id)
          = some (PVal.int (fresh i)))
    ∧ (∀ n : Int, dictGet headers row "id" = .int n → n ≠ 0 →
        (importRow headers (fresh i) (now i) row).map (fun c => c.id)
          = some (PVal.int n))
    ∧ (row.any PVal.truthy = false →
        importRows headers fresh now i (row :: rest)
          = importRows headers fresh now (i + 1) rest) := by
  refine ⟨?_, ?_, ?_⟩
  · intro h
    simp [importRow, pyOr, h, pyInt]
  · intro n hid hn
    simp [importRow, pyOr, hid, PVal.truthy, hn, pyInt]
  · intro h
    simp [importRows, h]

theorem C10_import_id_synthesis_witness :
    (importRow expectedHeaders 777 "T"
        [.int 0, .str "X", .str "", .bool false, .bool false, .bool false, .bool false,
         .str "D"]).map (fun c => c.id) = some (PVal.int 777)
    ∧ (importRow expectedHeaders 777 "T"
        [.int 5, .str "Y", .str "", .bool false, .bool false, .bool false, .bool false,
         .str "D"]).map (fun c => c.id) = some (PVal.int 5)
    ∧ importRows expectedHeaders (fun _ => 777) (fun _ => "T") 0
        [[.null, .str "", .int 0, .bool false, .bool false, .bool false, .bool false, .null]]
      = importRows expectedHeaders (fun _ => 777) (fun _ => "T") 1 [] :=
  ⟨(C10_import_id_synthesis expectedHeaders (fun _ => 777) (fun _ => "T") 0
      [.int 0, .str "X", .str "", .bool false, .bool false, .bool false, .bool false, .str "D"]
      []).1 (by decide),
   (C10_import_id_synthesis expectedHeaders (fun _ => 777) (fun _ => "T") 0
      [.int 5, .str "Y", .str "", .bool false, .bool false, .bool false, .bool false, .str "D"]
      []).2.1 5 (by decide) (by decide),
   (C10_import_id_synthesis expectedHeaders (fun _ => 777) (fun _ => "T") 0
      [.null, .str "", .int 0, .bool false, .bool false, .bool false, .bool false, .null]
      []).2.2 (by decide)⟩

/-- A payload that cannot break the name invariant through PUT: either it
carries no `name` key, or its `name` is a string non-empty after trim. -/
def payloadNameOk (payload : Payload) : Bool :=
  !jhas payload "name" || pvalNameOk (jget payload "name")

theorem all_filter_of_all {α : Type} (f q : α → Bool) (l : List α)
    (h : l.all f = true) : (l.filter q).all f = true := by
  simp only [List.all_eq_true] at h ⊢
  intro c hc
  exact h c (List.mem_filter.mp hc).1

theorem idsUnique_filter_map {q : WebContact → Bool} :
    ∀ {l : List WebContact}, idsUnique (l.map (fun c => c.id)) = true →
      idsUnique ((l.filter q).map (fun c => c.id)) = true := by
  intro l
  induction l with
  | nil => simp
  | cons c rest ih =>
      intro h
      simp only [List.map_cons, idsUnique, Bool.and_eq_true] at h
      rw [List.filter_cons]
      by_cases hq : q c = true
      · rw [if_pos hq]
        simp only [List.map_cons, idsUnique, Bool.and_eq_true]
        refine ⟨?_, ih h.2⟩
        simp only [List.all_eq_true, List.mem_map, List.mem_filter] at h ⊢
        rintro w ⟨d, ⟨hd, _⟩, rfl⟩
        exact h.1 d.id ⟨d, hd, rfl⟩
      · rw [if_neg hq]
        exact ih h.2

theorem idsUnique_append_single {l : List PVal} {v : PVal}
    (h : idsUnique l = true) (hv : l.all (fun w => !(w == v)) = true) :
    idsUnique (l ++ [v]) = true := by
  induction l with
  | nil => rfl
  | cons w rest ih =>
      simp only [idsUnique, Bool.and_eq_true] at h
      simp only [List.all_cons, Bool.and_eq_true] at hv
      have htail : idsUnique (rest ++ [v]) = true := ih h.2 hv.2
      simp only [List.cons_append, idsUnique, Bool.and_eq_true]
      refine ⟨?_, htail⟩
      rw [List.all_eq_true]
      intro x hx
      rcases List.mem_append.mp hx with hx2 | hx2
      · exact List.all_eq_true.mp h.1 x hx2
      · have hxv : x = v := by simpa using hx2
        have hwv : (w == v) = false := by simpa using hv.1
        have hne : w ≠ v := beq_eq_false_iff_ne.mp hwv
        rw [hxv]
        simp only [Bool.not_eq_true', beq_eq_false_iff_ne]
        exact Ne.symm hne

theorem applyPut_nameOk {payload : Payload} {c : WebContact}
    (hp : payloadNameOk payload = true) (hc : nameOk c = true) :
    nameOk (applyPut payload c) = true := by
  unfold nameOk applyPut
  by_cases hhas : jhas payload "name" = true
  · simp only [payloadNameOk, hhas, Bool.not_true, Bool.false_or] at hp
    simpa [hhas] using hp
  · have hhas2 : jhas payload "name" = false := by simpa using hhas
    simpa [hhas2] using hc

theorem putFirst_preserves (cid : Int) (payload : Payload)
    (hp : payloadNameOk payload = true) :
    ∀ (l l2 : List WebContact) (u : WebContact),
      putFirst cid payload l = some (l2, u) →
      l2.map (fun c => c.id) = l.map (fun c => c.id)
      ∧ (l.all nameOk = true → l2.all nameOk = true) := by
  intro l
  induction l with
  | nil => intro l2 u h; simp [putFirst] at h
  | cons c rest ih =>
      intro l2 u h
      unfold putFirst at h
      by_cases hc : c.id.eqInt cid = true
      · rw [if_pos hc] at h
        simp only [Option.some.injEq, Prod.mk.injEq] at h
        obtain ⟨h1, h2⟩ := h
        subst h1
        constructor
        · simp [applyPut]
        · intro hall
          simp only [List.all_cons, Bool.and_eq_true] at hall ⊢
          exact ⟨applyPut_nameOk hp hall.1, hall.2⟩
      · rw [if_neg hc] at h
        cases hrec : putFirst cid payload rest with
        | none => rw [hrec] at h; simp at h
        | some pr =>
            obtain ⟨rest2, u2⟩ := pr
            rw [hrec] at h
            simp only [Option.some.injEq, Prod.mk.injEq] at h
            obtain ⟨h1, h2⟩ := h
            subst h1
            obtain ⟨hids, hnames⟩ := ih rest2 u2 hrec
            constructor
            · simp [hids]
            · intro hall
              simp only [List.all_cons, Bool.and_eq_true] at hall ⊢
              exact ⟨hall.1, hnames hall.2⟩

theorem handle_delete_inv (path : String) (store : List WebContact)
    (hinv : storeInv store = true) :
    storeInv (handle_delete path store).1 = true := by
  unfold handle_delete
  cases pyIntOfString (lastSegment path) with
  | none => simpa using hinv
  | some cid =>
      by_cases hlen : ((store.filter (fun c => !(c.id.eqInt cid))).length == store.length) = true
      · simpa [hlen] using hinv
      · have hlen2 : ((store.filter (fun c => !(c.id.eqInt cid))).length == store.length) = false := by
          simpa using hlen
        simp only [hlen2, Bool.false_eq_true, if_false]
        unfold storeInv at hinv ⊢
        simp only [Bool.and_eq_true] at hinv ⊢
        exact ⟨all_filter_of_all nameOk _ store hinv.1, idsUnique_filter_map hinv.2⟩

theorem handle_update_inv (path : String) (body : Body) (store : List WebContact)
    (hp : payloadNameOk (read_json body) = true)
    (hinv : storeInv store = true) :
    storeInv (handle_update path body store).1 = true := by
  unfold handle_update
  split
  · simpa using hinv
  · split
    · simpa using hinv
    · next store2 u hput =>
        obtain ⟨hids, hnames⟩ := putFirst_preserves _ (read_json body) hp store store2 u hput
        unfold storeInv at hinv ⊢
        simp only [Bool.and_eq_true] at hinv ⊢
        exact ⟨hnames hinv.1, by rw [hids]; exact hinv.2⟩

theorem handle_create_inv (freshId : Int) (now : String) (body : Body)
    (store : List WebContact)
    (hinv : storeInv store = true)
    (hfree : store.all (fun d => !(d.id == PVal.int freshId)) = true) :
    storeInv (handle_create freshId now body store).1 = true := by
  simp only [handle_create]
  split
  · simpa using hinv
  · next name hstrip =>
      by_cases hname : name = ""
      · simpa [hname] using hinv
      · have hname2 : (name == "") = false := by simpa using hname
        simp only [hname2, Bool.false_eq_true, if_false]
        obtain ⟨s0, hs0⟩ : ∃ s0, name = pyStrip s0 := by
          unfold pyStripAttr at hstrip
          cases hpo : pyOr (jget (read_json body) "name") (.str "") with
          | str s =>
              rw [hpo] at hstrip
              simp only [Option.some.injEq] at hstrip
              exact ⟨s, hstrip.symm⟩
          | null => rw [hpo] at hstrip; simp at hstrip
          | int n => rw [hpo] at hstrip; simp at hstrip
          | bool b => rw [hpo] at hstrip; simp at hstrip
        unfold storeInv at hinv ⊢
        simp only [Bool.and_eq_true] at hinv ⊢
        constructor
        · simp only [List.all_append, Bool.and_eq_true]
          refine ⟨hinv.1, ?_⟩
          simp only [List.all_cons, List.all_nil, Bool.and_true]
          show pvalNameOk (PVal.str name) = true
          simp only [pvalNameOk]
          rw [hs0, pyStrip_idem]
          rw [← hs0]
          simpa using hname
        · rw [List.map_append]
          apply idsUnique_append_single hinv.2
          simpa [List.all_eq_true] using hfree

theorem dictGet_row8_id (a b c d e f g h : PVal) :
    dictGet expectedHeaders [a, b, c, d, e, f, g, h] "id" = a := rfl

theorem dictGet_row8_name (a b c d e f g h : PVal) :
    dictGet expectedHeaders [a, b, c, d, e, f, g, h] "name" = b := rfl

theorem dictGet_row8_notes (a b c d e f g h : PVal) :
    dictGet expectedHeaders [a, b, c, d, e, f, g, h] "notes" = c := rfl

theorem dictGet_row8_joined (a b c d e f g h : PVal) :
    dictGet expectedHeaders [a, b, c, d, e, f, g, h] "joinedCommunity" = d := rfl

theorem dictGet_row8_took (a b c d e f g h : PVal) :
    dictGet expectedHeaders [a, b, c, d, e, f, g, h] "tookChallenge" = e := rfl

theorem dictGet_row8_submitted (a b c d e f g h : PVal) :
    dictGet expectedHeaders [a, b, c, d, e, f, g, h] "submittedPaid" = f := rfl

theorem dictGet_row8_customer (a b c d e f g h : PVal) :
    dictGet expectedHeaders [a, b, c, d, e, f, g, h] "customer" = g := rfl

theorem dictGet_row8_dateAdded (a b c d e f g h : PVal) :
    dictGet expectedHeaders [a, b, c, d, e, f, g, h] "dateAdded" = h := rfl

theorem pyOr_str_empty (u : String) : pyOr (.str u) (.str "") = .str u := by
  by_cases hu : u = ""
  · subst hu; simp [pyOr]
  · simp [pyOr, PVal.truthy, hu]

theorem importRow_exportRow (freshId : Int) (nowR : String) (c : WebContact)
    (h : roundTripSafe c = true) :
    importRow expectedHeaders freshId nowR (exportRow c) = some c := by
  obtain ⟨cid, cname, cnotes, cjo, cto, csu, ccu, cda⟩ := c
  simp only [roundTripSafe, Bool.and_eq_true] at h
  obtain ⟨⟨⟨⟨⟨⟨⟨hid, hname⟩, hnotes⟩, hj⟩, ht⟩, hsp⟩, hcu⟩, hd⟩ := h
  cases cid with
  | null => simp at hid
  | str s => simp at hid
  | bool b => simp at hid
  | int n =>
  cases cname with
  | null => simp at hname
  | int m => simp at hname
  | bool b => simp at hname
  | str s =>
  cases cnotes with
  | null => simp at hnotes
  | int m => simp at hnotes
  | bool b => simp at hnotes
  | str t =>
  cases cjo with
  | null => simp at hj
  | int m => simp at hj
  | str u => simp at hj
  | bool bj =>
  cases cto with
  | null => simp at ht
  | int m => simp at ht
  | str u => simp at ht
  | bool bt =>
  cases csu with
  | null => simp at hsp
  | int m => simp at hsp
  | str u => simp at hsp
  | bool bs =>
  cases ccu with
  | null => simp at hcu
  | int m => simp at hcu
  | str u => simp at hcu
  | bool bc =>
  cases cda with
  | null => simp at hd
  | int m => simp at hd
  | bool b => simp at hd
  | str ds =>
  have hsname : pyStrip s = s := by simpa using hname
  have hid2 : n ≠ 0 := by simpa using hid
  have hd2 : ds ≠ "" := by simpa using hd
  have hidOr : pyOr (.int n) (.int freshId) = .int n := by
    simp [pyOr, PVal.truthy, hid2]
  have hdOr : pyOr (.str ds) (.str (nowR ++ "Z")) = .str ds := by
    simp [pyOr, PVal.truthy, hd2]
  simp only [exportRow, importRow, dictGet_row8_id, dictGet_row8_name, dictGet_row8_notes,
    dictGet_row8_joined, dictGet_row8_took, dictGet_row8_submitted, dictGet_row8_customer,
    dictGet_row8_dateAdded, hidOr, hdOr, PVal.truthy, pyOr_str_empty, pyInt, pyStr, _to_bool,
    hsname]

theorem exportRow_truthy (c : WebContact) (h : roundTripSafe c = true) :
    (exportRow c).any PVal.truthy = true := by
  simp only [roundTripSafe, Bool.and_eq_true] at h
  obtain ⟨⟨⟨⟨⟨⟨⟨hid, _⟩, _⟩, _⟩, _⟩, _⟩, _⟩, _⟩ := h
  cases hcid : c.id with
  | int n =>
      rw [hcid] at hid
      have hid2 : n ≠ 0 := by simpa using hid
      simp only [exportRow, hcid, List.any_cons, PVal.truthy, Bool.or_eq_true]
      exact Or.inl (by simpa using hid2)
  | null => rw [hcid] at hid; simp at hid
  | str s => rw [hcid] at hid; simp at hid
  | bool b => rw [hcid] at hid; simp at hid

theorem importRows_exportRows (fresh : Nat → Int) (now : Nat → String) :
    ∀ (store : List WebContact) (i : Nat),
      (∀ c ∈ store, roundTripSafe c = true) →
      importRows expectedHeaders fresh now i (store.map exportRow) = some store := by
  intro store
  induction store with
  | nil => intro i _; simp [importRows]
  | cons c rest ih =>
      intro i h
      have hc := h c (by simp)
      simp only [List.map_cons, importRows, exportRow_truthy c hc, if_true,
        importRow_exportRow (fresh i) (now i) c hc, ih (i + 1) (fun d hd => h d (by simp [hd]))]

/-- C3 (amended): exporting and then re-importing reproduces the store
exactly — ids, names, the four flags, notes and dateAdded all preserved, and
any prior contents of the store replaced — provided every contact is
round-trip-safe: nonzero integer id (a zero/falsy id cell would be replaced
by a fresh timestamp), already-trimmed string name (import re-strips names),
string notes, boolean flags, and non-empty string dateAdded (a falsy cell
would be replaced by the import-time timestamp). -/
theorem C3_export_import_round_trip (fresh : Nat → Int) (now : Nat → String)
    (store store2 : List WebContact)
    (h : ∀ c ∈ store, roundTripSafe c = true) :
    handleRequest fresh now .POST "/api/contacts/import" (.sheet (exportSheet store)) store2
      = (store, some ⟨200, RespBody.imported store.length⟩) := by
  have hrows := importRows_exportRows fresh now store 0 h
  have hh : headersValid expectedHeaders = true := by decide
  simp [handleRequest, handle_import, exportSheet, hh, hrows]

theorem C3_export_import_round_trip_witness :
    (∀ c ∈ [(⟨.int 12, .str "Jane", .str "vip", .bool true, .bool false, .bool true, .bool false,
        .str "2024-01-01T00:00:00Z"⟩ : WebContact)], roundTripSafe c = true)
    ∧ handleRequest (fun _ => 99) (fun _ => "T") .POST "/api/contacts/import"
        (.sheet (exportSheet
          [⟨.int 12, .str "Jane", .str "vip", .bool true, .bool false, .bool true, .bool false,
            .str "2024-01-01T00:00:00Z"⟩]))
        [⟨.int 1, .str "Old", .str "", .bool false, .bool false, .bool false, .bool false,
          .str "D"⟩]
      = ([⟨.int 12, .str "Jane", .str "vip", .bool true, .bool false, .bool true, .bool false,
           .str "2024-01-01T00:00:00Z"⟩],
         some ⟨200, RespBody.imported 1⟩) :=
  ⟨by decide,
   C3_export_import_round_trip (fun _ => 99) (fun _ => "T") _ _ (by decide)⟩

/-- C3 counterexample: the claim as stated quantifies over every store
contents. A contact whose name carries surrounding whitespace (reachable,
e.g. stored through PUT, which does not trim) is not reproduced: import
strips the name, so the store after export-then-import differs from the
original. -/
theorem C3_round_trip_counterexample :
    handleRequest (fun _ => 99) (fun _ => "T") .POST "/api/contacts/import"
        (.sheet (exportSheet
          [⟨.int 1, .str " A ", .str "", .bool false, .bool false, .bool false, .bool false,
            .str "D"⟩]))
        [⟨.int 1, .str " A ", .str "", .bool false, .bool false, .bool false, .bool false,
          .str "D"⟩]
      = ([⟨.int 1, .str "A", .str "", .bool false, .bool false, .bool false, .bool false,
           .str "D"⟩],
         some ⟨200, RespBody.imported 1⟩)
    ∧ [(⟨.int 1, .str "A", .str "", .bool false, .bool false, .bool false, .bool false,
         .str "D"⟩ : WebContact)]
      ≠ [⟨.int 1, .str " A ", .str "", .bool false, .bool false, .bool false, .bool false,
          .str "D"⟩] := by
  constructor
  · decide
  · decide

/-- C4 (amended): from a state satisfying both invariants (string names
non-empty after trim, pairwise-distinct ids), DELETE always preserves them;
PUT preserves them provided any `name` in its body is a string non-empty
after trimming (the code itself never checks this); POST create preserves
them provided the freshly sampled id is not already in the store. Import
establishes neither in general (see the counterexample). -/
theorem C4_invariants_preserved (fresh : Nat → Int) (now : Nat → String)
    (path : String) (body : Body) (store : List WebContact)
    (hinv : storeInv store = true) :
    storeInv (handleRequest fresh now .DELETE path body store).1 = true
    ∧ (payloadNameOk (read_json body) = true →
        storeInv (handleRequest fresh now .PUT path body store).1 = true)
    ∧ (store.all (fun d => !(d.id == PVal.int (fresh 0))) = true →
        storeInv (handleRequest fresh now .POST "/api/contacts" body store).1 = true) := by
  refine ⟨?_, ?_, ?_⟩
  · by_cases hsw : pyStartsWith path "/api/contacts/" = true
    · rcases hdel : handle_delete path store with ⟨s2, r⟩
      have := handle_delete_inv path store hinv
      rw [hdel] at this
      simpa [handleRequest, hsw, hdel] using this
    · have hsw2 : pyStartsWith path "/api/contacts/" = false := by simpa using hsw
      simpa [handleRequest, hsw2] using hinv
  · intro hp
    by_cases hsw : pyStartsWith path "/api/contacts/" = true
    · rcases hupd : handle_update path body store with ⟨s2, r⟩
      have := handle_update_inv path body store hp hinv
      rw [hupd] at this
      simpa [handleRequest, hsw, hupd] using this
    · have hsw2 : pyStartsWith path "/api/contacts/" = false := by simpa using hsw
      simpa [handleRequest, hsw2] using hinv
  · intro hfree
    have h1 : (("/api/contacts" : String) == "/api/contacts/import") = false := by decide
    have h2 : (("/api/contacts" : String) == "/api/contacts") = true := by decide
    simpa [handleRequest, h1, h2] using handle_create_inv (fresh 0) (now 0) body store hinv hfree

/-- C4 counterexample: from stores satisfying both invariants, a PUT whose
body carries a whitespace-only name leaves a contact whose name is empty
after trimming, and an import whose two rows share id 5 leaves duplicate
ids — so PUT and import do not preserve the claimed invariants. -/
theorem C4_invariants_counterexample :
    (storeInv [⟨.int 1, .str "A", .str "", .bool false, .bool false, .bool false, .bool false,
        .str "D"⟩] = true
      ∧ storeInv (handleRequest (fun _ => 0) (fun _ => "") .PUT "/api/contacts/1"
          (.json [("name", PVal.str "  ")])
          [⟨.int 1, .str "A", .str "", .bool false, .bool false, .bool false, .bool false,
            .str "D"⟩]).1 = false)
    ∧ (storeInv [] = true
      ∧ storeInv (handleRequest (fun _ => 0) (fun _ => "") .POST "/api/contacts/import"
          (.sheet ⟨expectedHeaders,
            [[.int 5, .str "A", .str "", .bool false, .bool false, .bool false, .bool false,
              .str "D"],
             [.int 5, .str "B", .str "", .bool false, .bool false, .bool false, .bool false,
              .str "D"]]⟩) []).1 = false) := by
  decide

theorem C4_invariants_preserved_witness :
    storeInv [(⟨.int 1, .str "A", .str "", .bool false, .bool false, .bool false, .bool false,
        .str "D"⟩ : WebContact)] = true
    ∧ storeInv (handleRequest (fun _ => 7) (fun _ => "T") .DELETE "/api/contacts/1" .empty
        [⟨.int 1, .str "A", .str "", .bool false, .bool false, .bool false, .bool false,
          .str "D"⟩]).1 = true
    ∧ storeInv (handleRequest (fun _ => 7) (fun _ => "T") .PUT "/api/contacts/1"
        (.json [("name", PVal.str "B")])
        [⟨.int 1, .str "A", .str "", .bool false, .bool false, .bool false, .bool false,
          .str "D"⟩]).1 = true
    ∧ storeInv (handleRequest (fun _ => 7) (fun _ => "T") .POST "/api/contacts"
        (.json [("name", PVal.str "B")])
        [⟨.int 1, .str "A", .str "", .bool false, .bool false, .bool false, .bool false,
          .str "D"⟩]).1 = true :=
  ⟨by decide,
   (C4_invariants_preserved (fun _ => 7) (fun _ => "T") "/api/contacts/1" .empty _
      (by decide)).1,
   (C4_invariants_preserved (fun _ => 7) (fun _ => "T") "/api/contacts/1"
      (.json [("name", PVal.str "B")]) _ (by decide)).2.1 (by decide),
   (C4_invariants_preserved (fun _ => 7) (fun _ => "T") "/api/contacts/1"
      (.json [("name", PVal.str "B")]) _ (by decide)).2.2 (by decide)⟩

/-- C5 counterexample: `GET /api/contacts/1/2` matches none of the routes in
the claim's table (it is not `/api/contacts/{id}` — `{id}` is one segment),
yet the code's `startswith`-based dispatch hands it to the by-id handler,
which looks up the last segment and answers 200 with contact 2 instead of
404 `{"error": "Not found"}`. -/
theorem C5_startswith_routing_counterexample :
    specRoute .GET "/api/contacts/1/2" = false
    ∧ handleRequest (fun _ => 0) (fun _ => "") .GET "/api/contacts/1/2" .empty
        [⟨.int 2, .str "B", .str "", .bool false, .bool false, .bool false, .bool false, .str "D"⟩]
      = ([⟨.int 2, .str "B", .str "", .bool false, .bool false, .bool false, .bool false, .str "D"⟩],
         some ⟨200, .contact ⟨.int 2, .str "B", .str "", .bool false, .bool false, .bool false,
           .bool false, .str "D"⟩⟩) := by
  decide

end Funnel
